import Mathlib

/-!
# obfuscate (2020.01.22.GoDays.berlin/main.go)

A shallow embedding of the `obfuscate` code generator and the proofs of the
properties stated about it.

Go strings are byte sequences; they are modelled as lists of natural numbers
(one number per byte).  The functions of the Go standard library that
`main.go` calls are modelled by their documented behaviour on those byte
sequences.  The Unicode case table behind `unicode.ToLower` is a parameter
(`unicodeToLower`) of every definition that reaches it.
-/

namespace Obfuscate

/-! ## Go strings -/

/-- A Go string: an immutable sequence of bytes. -/
abbrev GoString := List Nat

/-- The constant `utf8.RuneError` (U+FFFD). -/
def RuneError : Nat := 0xFFFD

/-- A rune that `utf8.ValidRune` accepts: at most U+10FFFF and no surrogate half. -/
def ValidRune (r : Nat) : Prop := r < 0xD800 ∨ (0xE000 ≤ r ∧ r < 0x110000)

instance (r : Nat) : Decidable (ValidRune r) := by
  unfold ValidRune; infer_instance

/-- The conversion `string(r)` of a rune: its UTF-8 encoding, and the encoding
of U+FFFD for a rune that is not valid. -/
def runeToString (r : Nat) : GoString :=
  if r < 0x80 then [r]
  else if r < 0x800 then [0xC0 + r / 64, 0x80 + r % 64]
  else if 0xD800 ≤ r ∧ r < 0xE000 then [0xEF, 0xBF, 0xBD]
  else if r < 0x10000 then [0xE0 + r / 4096, 0x80 + r / 64 % 64, 0x80 + r % 64]
  else if r < 0x110000 then
    [0xF0 + r / 262144, 0x80 + r / 4096 % 64, 0x80 + r / 64 % 64, 0x80 + r % 64]
  else [0xEF, 0xBF, 0xBD]

/-- The UTF-8 encoding of a sequence of code points. -/
def encodeRunes : List Nat → GoString
  | [] => []
  | r :: rs => runeToString r ++ encodeRunes rs

/-- The bytes of a string literal of the source. -/
def lit (s : String) : GoString := encodeRunes (s.data.map Char.toNat)

/-- A continuation byte of UTF-8 (0x80 to 0xBF). -/
def isCont (b : Nat) : Bool := decide (0x80 ≤ b ∧ b ≤ 0xBF)

/-- The function `utf8.DecodeRuneInString`: the first rune of `s` and its width
in bytes; `(RuneError, 0)` for the empty string and `(RuneError, 1)` when `s`
does not start with a well-formed, shortest-form encoding of a valid rune. -/
def DecodeRuneInString (s : GoString) : Nat × Nat :=
  match s with
  | [] => (RuneError, 0)
  | s0 :: t =>
    if s0 < 0x80 then (s0, 1)
    else if s0 < 0xC2 then (RuneError, 1)
    else if s0 < 0xE0 then
      match t with
      | s1 :: _ =>
        if isCont s1 then (s0 % 32 * 64 + s1 % 64, 2) else (RuneError, 1)
      | _ => (RuneError, 1)
    else if s0 < 0xF0 then
      match t with
      | s1 :: s2 :: _ =>
        let lo := if s0 = 0xE0 then 0xA0 else 0x80
        let hi := if s0 = 0xED then 0x9F else 0xBF
        if lo ≤ s1 ∧ s1 ≤ hi ∧ isCont s2 then
          (s0 % 16 * 4096 + s1 % 64 * 64 + s2 % 64, 3)
        else (RuneError, 1)
      | _ => (RuneError, 1)
    else if s0 < 0xF5 then
      match t with
      | s1 :: s2 :: s3 :: _ =>
        let lo := if s0 = 0xF0 then 0x90 else 0x80
        let hi := if s0 = 0xF4 then 0x8F else 0xBF
        if lo ≤ s1 ∧ s1 ≤ hi ∧ isCont s2 ∧ isCont s3 then
          (s0 % 8 * 262144 + s1 % 64 * 4096 + s2 % 64 * 64 + s3 % 64, 4)
        else (RuneError, 1)
      | _ => (RuneError, 1)
    else (RuneError, 1)

/-- The function `strings.Map` for a mapping that never returns a negative rune:
every rune of `s` (an ill-formed byte counting as U+FFFD) is replaced by the
encoding of its image.  `skip` is the number of bytes of the current rune that
are still to be passed over. -/
def mapRunes (mapping : Nat → Nat) : Nat → GoString → GoString
  | _, [] => []
  | 0, b :: bs =>
    runeToString (mapping (DecodeRuneInString (b :: bs)).1)
      ++ mapRunes mapping ((DecodeRuneInString (b :: bs)).2 - 1) bs
  | k + 1, _ :: bs => mapRunes mapping k bs

/-- The function `strings.Map`. -/
def Map (mapping : Nat → Nat) (s : GoString) : GoString := mapRunes mapping 0 s

/-- The ASCII lower-casing of one byte (`c += 'a' - 'A'` for `'A' <= c <= 'Z'`). -/
def lowerByte (c : Nat) : Nat := if 65 ≤ c ∧ c ≤ 90 then c + 32 else c

/-- The function `strings.ToLower`: strings of ASCII bytes only are lower-cased
byte by byte, every other string goes through `Map(unicode.ToLower, s)`. -/
def ToLower (unicodeToLower : Nat → Nat) (s : GoString) : GoString :=
  if s.all (fun c => decide (c < 0x80)) then s.map lowerByte
  else Map unicodeToLower s

/-- A table that agrees with `unicode.ToLower` on U+0000 to U+00FF and is the
identity above; it instantiates the case table where a concrete run is
evaluated. -/
def latin1ToLower (r : Nat) : Nat :=
  if 65 ≤ r ∧ r ≤ 90 then r + 32
  else if 0xC0 ≤ r ∧ r ≤ 0xDE ∧ r ≠ 0xD7 then r + 32
  else r

/-- The operand list of `%!(EXTRA ...)`: the operands that no verb consumed. -/
def extraArgs : List GoString → GoString
  | [] => []
  | [a] => lit "string=" ++ a
  | a :: as => lit "string=" ++ a ++ lit ", " ++ extraArgs as

/-- The function `fmt.Sprintf` for string operands and the verbs `%s` and `%%`
(flags, width and precision are outside the model; no format string of the
program has any).  A missing operand, a verb other than `s`, a lone `%` at
the end and unused operands print as Go prints them. -/
def Sprintf : GoString → List GoString → GoString
  | [], [] => []
  | [], a :: as => lit "%!(EXTRA " ++ extraArgs (a :: as) ++ lit ")"
  | c :: fmt, args =>
    if c = 37 then
      match fmt, args with
      | [], _ => lit "%!(NOVERB)" ++ Sprintf [] args
      | v :: rest, [] =>
        if v = 37 then 37 :: Sprintf rest []
        else lit "%!" ++ [v] ++ lit "(MISSING)" ++ Sprintf rest []
      | v :: rest, a :: as =>
        if v = 37 then 37 :: Sprintf rest (a :: as)
        else if v = 115 then a ++ Sprintf rest as
        else lit "%!" ++ [v] ++ lit "(string=" ++ a ++ lit ")" ++ Sprintf rest as
    else c :: Sprintf fmt args

/-! ## The template engine (`text/template`) -/

/-- A parsed template: literal text and field actions. -/
inductive Node where
  | text (b : GoString)
  | field (name : GoString)
  deriving DecidableEq

/-- The state of the template scanner. -/
inductive Mode where
  | text
  | open1
  | action (acc : GoString)
  | close1 (acc : GoString)

/-- Puts one more byte of literal text in front of a node list. -/
def consText (c : Nat) : List Node → List Node
  | Node.text t :: ns => Node.text (c :: t) :: ns
  | ns => Node.text [c] :: ns

/-- A byte of an identifier: an ASCII letter, a digit or the underscore. -/
def isIdentByte (c : Nat) : Bool :=
  decide ((65 ≤ c ∧ c ≤ 90) ∨ (97 ≤ c ∧ c ≤ 122) ∨ (48 ≤ c ∧ c ≤ 57) ∨ c = 95)

/-- The node of an action whose source, between the delimiters, is `src`.  Only
the field action `.Name` is in the model; any other action is reported as an
error. -/
def actionNode (src : GoString) : Except GoString Node :=
  match src with
  | 46 :: c :: name =>
    if isIdentByte c ∧ ¬ (48 ≤ c ∧ c ≤ 57) ∧ name.all isIdentByte then
      Except.ok (Node.field (c :: name))
    else Except.error (lit "template: tmpl: action outside the model")
  | _ => Except.error (lit "template: tmpl: action outside the model")

/-- The scanner of `Parse`: text up to the left delimiter (two opening braces),
then the action up to the right delimiter (two closing braces).  The bytes of
an action are collected in reverse in `acc`. -/
def scan : Mode → GoString → Except GoString (List Node)
  | Mode.text, [] => Except.ok []
  | Mode.open1, [] => Except.ok [Node.text [123]]
  | Mode.action _, [] => Except.error (lit "template: tmpl: unclosed action")
  | Mode.close1 _, [] => Except.error (lit "template: tmpl: unclosed action")
  | Mode.text, c :: rest =>
    if c = 123 then scan Mode.open1 rest
    else (scan Mode.text rest).map (consText c)
  | Mode.open1, c :: rest =>
    if c = 123 then scan (Mode.action []) rest
    else (scan Mode.text rest).map (fun ns => consText 123 (consText c ns))
  | Mode.action acc, c :: rest =>
    if c = 125 then scan (Mode.close1 acc) rest
    else scan (Mode.action (c :: acc)) rest
  | Mode.close1 acc, c :: rest =>
    if c = 125 then
      match actionNode acc.reverse with
      | Except.error e => Except.error e
      | Except.ok n => (scan Mode.text rest).map (fun ns => n :: ns)
    else scan (Mode.action (c :: 125 :: acc)) rest

/-- The call `template.New("tmpl").Parse(text)`. -/
def Parse (text : GoString) : Except GoString (List Node) := scan Mode.text text

/-- The record `tmplVars` of the source. -/
structure tmplVars where
  PkgName : GoString
  ReceiverName : GoString
  TypeName : GoString
  ReplaceBy : GoString

/-- The field of `tmplVars` that an action names, when there is one. -/
def tmplVars.field (v : tmplVars) (name : GoString) : Option GoString :=
  if name = lit "PkgName" then some v.PkgName
  else if name = lit "ReceiverName" then some v.ReceiverName
  else if name = lit "TypeName" then some v.TypeName
  else if name = lit "ReplaceBy" then some v.ReplaceBy
  else none

/-- The method `Execute` on a parsed template: the text produced, and the error
that stopped the execution when an action names no field of the data. -/
def Execute : List Node → tmplVars → GoString × Option GoString
  | [], _ => ([], none)
  | Node.text b :: ns, v => (b ++ (Execute ns v).1, (Execute ns v).2)
  | Node.field f :: ns, v =>
    match v.field f with
    | none => ([], some (lit "template: tmpl: can not evaluate field"))
    | some s => (s ++ (Execute ns v).1, (Execute ns v).2)

/-! ## The constants of `main.go` -/

/-- The constant `fileNameTmpl`. -/
def fileNameTmpl : GoString := lit "gen_%s_obfuscated.go"

/-- The constant `codeTmpl`. -/
def codeTmpl : GoString :=
  lit ("\n// Code generated by obfuscate. DO NOT EDIT.\npackage \x7b\x7b.PkgName\x7d\x7d\n\n"
    ++ "import (\n\t\"fmt\"\n\t\"strings\"\n)\n\n"
    ++ "func (\x7b\x7b.ReceiverName\x7d\x7d \x7b\x7b.TypeName\x7d\x7d) String() string \x7b\n\treturn %s\n\x7d\n\n"
    ++ "func (\x7b\x7b.ReceiverName\x7d\x7d \x7b\x7b.TypeName\x7d\x7d) GoString() string \x7b\n\treturn %s\n\x7d\n")

/-- The constant `tmplStr`. -/
def tmplStr : GoString :=
  lit "fmt.Sprint(strings.Repeat(\"\x7b\x7b.ReplaceBy\x7d\x7d\", len(string(s))))"

/-- The constant `tmplOther`. -/
def tmplOther : GoString :=
  lit "fmt.Sprint(strings.Repeat(\"\x7b\x7b.ReplaceBy\x7d\x7d\", 10))"

/-! ## Packages, objects and the environment of a run -/

/-- The kinds of object that a package scope holds. -/
inductive ObjKind where
  | Const
  | TypeName
  | Var
  | Func
  deriving DecidableEq

/-- An object of `go/types`: its kind, and the text of the underlying type of
its type, that is the value of `obj.Type().Underlying().String()`. -/
structure Object where
  kind : ObjKind
  underlying : GoString
  deriving DecidableEq

/-- A loaded package: its name and the objects of its scope, by name. -/
structure Package where
  Name : GoString
  Scope : List (GoString × Object)
  deriving DecidableEq

/-- The call `pkg.Types.Scope().Lookup(name)`; `none` is the nil object. -/
def Package.Lookup (pkg : Package) (name : GoString) : Option Object :=
  (pkg.Scope.find? (fun e => decide (e.1 = name))).map Prod.snd

/-- An open file: `Name` is the name it was created under. -/
structure File where
  Name : GoString
  deriving DecidableEq

/-- What a run finds outside the program: the argument vector, the result of
`packages.Load`, and the errors of the file operations and of the formatter
(`none`: the operation succeeds). -/
structure Env where
  Args : List GoString
  loadPkgs : List Package
  loadErr : Option GoString
  createErr : GoString → Option GoString
  writeErr : Option GoString
  closeErr : Option GoString
  goimportsErr : Option (GoString × GoString)

/-- The messages of the calls `logger.Fatal()...Msgf(...)`, one per call site,
with the operands of the message. -/
inductive Diagnostic where
  | couldNotLoadPackages (err : GoString)
  | expectingOnlyOnePackage (received : Nat) (pkgs : List Package)
  | couldNotFindType (typeName pkgName : GoString)
  | couldNotCreateFile (fileName : GoString)
  | couldNotParseTemplate (err : GoString)
  | couldNotExecuteTemplate (typeName : GoString)
  | couldNotCloseFile (fileName err : GoString)
  | couldNotRunGoimports (args : List GoString) (err out : GoString)
  deriving DecidableEq

/-- The operations of a run, in the order in which the program performs them. -/
inductive Event where
  | stdout (text : GoString)
  | debug (pkgName typeName : GoString)
  | fatal (d : Diagnostic)
  | load
  | lookup (name : GoString)
  | create (fileName : GoString)
  | classify (isString : Bool)
  | parse (text : GoString)
  | execute (fileName text : GoString)
  | close (fileName : GoString)
  | command (argv : List GoString)
  deriving DecidableEq

/-- A computation of the program: the operations performed so far, and the
value computed, or `none` once `os.Exit(1)` has ended the process. -/
structure Run (α : Type) where
  trace : List Event
  result : Option α

/-- Sequencing: nothing runs after the process has exited. -/
def Run.andThen {α β : Type} (r : Run α) (k : α → Run β) : Run β :=
  match r.result with
  | none => ⟨r.trace, none⟩
  | some a => ⟨r.trace ++ (k a).trace, (k a).result⟩

instance : Monad Run where
  pure a := ⟨[], some a⟩
  bind := Run.andThen

/-- Performs one operation. -/
def emit (e : Event) : Run Unit := ⟨[e], some ()⟩

/-- The call `logger.Fatal()...Msgf(...)`: the message is logged and the process
exits with status 1. -/
def Fatal {α : Type} (d : Diagnostic) : Run α := ⟨[Event.fatal d], none⟩

/-- The exit status of the process: 0 when `main` returns, 1 after `os.Exit(1)`. -/
def Run.exitStatus {α : Type} (r : Run α) : Nat :=
  match r.result with
  | some _ => 0
  | none => 1

/-! ## The functions of `main.go` -/

/-- The function `chooseTmpl`. -/
def chooseTmpl (isString : Bool) : GoString :=
  if isString then Sprintf codeTmpl [tmplStr, tmplStr]
  else Sprintf codeTmpl [tmplOther, tmplOther]

/-- The function `underlyingString`. -/
def underlyingString (obj : Object) : Bool :=
  decide (obj.underlying = lit "string")

/-- The function `receiverName`. -/
def receiverName (unicodeToLower : Nat → Nat) (targetTypeName : GoString) : GoString :=
  let receiverName := (DecodeRuneInString targetTypeName).1
  ToLower unicodeToLower (runeToString receiverName)

/-- The function `loadPkg`. -/
def loadPkg (env : Env) : Run Package := do
  emit Event.load
  match env.loadErr with
  | some err => Fatal (Diagnostic.couldNotLoadPackages err)
  | none =>
    match env.loadPkgs with
    | [pkg] => pure pkg
    | pkgs => Fatal (Diagnostic.expectingOnlyOnePackage pkgs.length pkgs)

/-- The function `createFile`. -/
def createFile (unicodeToLower : Nat → Nat) (env : Env) (targetTypeName : GoString) :
    Run File := do
  let fileName := Sprintf fileNameTmpl [ToLower unicodeToLower targetTypeName]
  emit (Event.create fileName)
  match env.createErr fileName with
  | some _ => Fatal (Diagnostic.couldNotCreateFile fileName)
  | none => pure ⟨fileName⟩

/-- The function `generateCode`; the writer `w` is the file that `main` created. -/
def generateCode (unicodeToLower : Nat → Nat) (env : Env) (obj : Object) (pkg : Package)
    (targetTypeName : GoString) (w : File) : Run Unit := do
  let isString := underlyingString obj
  emit (Event.classify isString)
  let vars : tmplVars :=
    { PkgName := pkg.Name
      TypeName := targetTypeName
      ReplaceBy := lit "*"
      ReceiverName := receiverName unicodeToLower targetTypeName }
  emit (Event.parse (chooseTmpl isString))
  match Parse (chooseTmpl isString) with
  | Except.error err => Fatal (Diagnostic.couldNotParseTemplate err)
  | Except.ok t =>
    emit (Event.execute w.Name (Execute t vars).1)
    match (Execute t vars).2, env.writeErr with
    | none, none => pure ()
    | _, _ => Fatal (Diagnostic.couldNotExecuteTemplate targetTypeName)

/-- The function `runGoimport`. -/
def runGoimport (env : Env) (file : File) : Run Unit := do
  let argv := [lit "goimports", lit "-w", file.Name]
  emit (Event.command argv)
  match env.goimportsErr with
  | some (out, err) => Fatal (Diagnostic.couldNotRunGoimports argv err out)
  | none => pure ()

/-- The function `main`. -/
def main (unicodeToLower : Nat → Nat) (env : Env) : Run Unit :=
  if env.Args.length ≠ 2 then
    emit (Event.stdout (lit "usage: obfuscate typeName\n"))
  else do
    let targetTypeName := env.Args.getD 1 []
    let pkg ← loadPkg env
    emit (Event.debug pkg.Name targetTypeName)
    emit (Event.lookup targetTypeName)
    match pkg.Lookup targetTypeName with
    | none => Fatal (Diagnostic.couldNotFindType targetTypeName pkg.Name)
    | some obj =>
      let file ← createFile unicodeToLower env targetTypeName
      generateCode unicodeToLower env obj pkg targetTypeName file
      emit (Event.close file.Name)
      match env.closeErr with
      | some err => Fatal (Diagnostic.couldNotCloseFile file.Name err)
      | none => runGoimport env file

/-! ## Concrete runs -/

/-- The package `sample` with `type Token string`, `type Count int` and
`var Greeting string`. -/
def samplePkg : Package :=
  { Name := lit "sample"
    Scope := [(lit "Token", ⟨ObjKind.TypeName, lit "string"⟩),
              (lit "Count", ⟨ObjKind.TypeName, lit "int"⟩),
              (lit "Greeting", ⟨ObjKind.Var, lit "string"⟩)] }

/-- A run of `obfuscate name` in the directory of `samplePkg` in which every
operation succeeds. -/
def sampleEnv (name : String) : Env :=
  { Args := [lit "obfuscate", lit name]
    loadPkgs := [samplePkg]
    loadErr := none
    createErr := fun _ => none
    writeErr := none
    closeErr := none
    goimportsErr := none }

/-! ## The text that `generateCode` renders -/

/-- The body of a generated method for a type whose underlying type is `string`. -/
def strBody : GoString := lit "fmt.Sprint(strings.Repeat(\"*\", len(string(s))))"

/-- The body of a generated method for a type of any other underlying type. -/
def otherBody : GoString := lit "fmt.Sprint(strings.Repeat(\"*\", 10))"

/-- The declaration of the method `method` on the type `typ` with the receiver
`recv` and the body `return body`. -/
def methodDecl (recv typ : GoString) (method : String) (body : GoString) : GoString :=
  lit "func (" ++ (recv ++ (lit " " ++ (typ ++ (lit ") " ++ (lit method
    ++ (lit "() string \x7b\n\treturn " ++ (body ++ lit "\n\x7d\n")))))))

/-- The generated file: header comment, package clause, import block and the
two method declarations. -/
def generatedFile (pkgName recv typ body : GoString) : GoString :=
  lit "\n// Code generated by obfuscate. DO NOT EDIT.\n"
    ++ (lit "package " ++ (pkgName ++ (lit "\n\n"
    ++ (lit "import (\n\t\"fmt\"\n\t\"strings\"\n)\n\n"
    ++ (methodDecl recv typ "String" body
    ++ (lit "\n" ++ methodDecl recv typ "GoString" body))))))

/-- The parsed template for a textual type. -/
def strNodes : List Node :=
  [Node.text (lit "\n// Code generated by obfuscate. DO NOT EDIT.\npackage "),
   Node.field (lit "PkgName"),
   Node.text (lit "\n\nimport (\n\t\"fmt\"\n\t\"strings\"\n)\n\nfunc ("),
   Node.field (lit "ReceiverName"), Node.text (lit " "), Node.field (lit "TypeName"),
   Node.text (lit ") String() string \x7b\n\treturn fmt.Sprint(strings.Repeat(\""),
   Node.field (lit "ReplaceBy"),
   Node.text (lit "\", len(string(s))))\n\x7d\n\nfunc ("),
   Node.field (lit "ReceiverName"), Node.text (lit " "), Node.field (lit "TypeName"),
   Node.text (lit ") GoString() string \x7b\n\treturn fmt.Sprint(strings.Repeat(\""),
   Node.field (lit "ReplaceBy"),
   Node.text (lit "\", len(string(s))))\n\x7d\n")]

/-- The parsed template for a type that is not textual. -/
def otherNodes : List Node :=
  [Node.text (lit "\n// Code generated by obfuscate. DO NOT EDIT.\npackage "),
   Node.field (lit "PkgName"),
   Node.text (lit "\n\nimport (\n\t\"fmt\"\n\t\"strings\"\n)\n\nfunc ("),
   Node.field (lit "ReceiverName"), Node.text (lit " "), Node.field (lit "TypeName"),
   Node.text (lit ") String() string \x7b\n\treturn fmt.Sprint(strings.Repeat(\""),
   Node.field (lit "ReplaceBy"),
   Node.text (lit "\", 10))\n\x7d\n\nfunc ("),
   Node.field (lit "ReceiverName"), Node.text (lit " "), Node.field (lit "TypeName"),
   Node.text (lit ") GoString() string \x7b\n\treturn fmt.Sprint(strings.Repeat(\""),
   Node.field (lit "ReplaceBy"),
   Node.text (lit "\", 10))\n\x7d\n")]

/-- The template body chosen for a classification. -/
def bodyOf (isString : Bool) : GoString := if isString then strBody else otherBody

/-! ## The stages of a run -/

/-- The stage of the run that an operation belongs to, in the order of the
program text; the messages are no stage. -/
def stage : Event → Option Nat
  | Event.load => some 0
  | Event.lookup _ => some 1
  | Event.create _ => some 2
  | Event.classify _ => some 3
  | Event.parse _ => some 4
  | Event.execute _ _ => some 5
  | Event.close _ => some 6
  | Event.command _ => some 7
  | _ => none

/-! ## More concrete runs -/

/-- The run `obfuscate Token` in a directory from which no package loads. -/
def noPkgEnv : Env := { sampleEnv "Token" with loadPkgs := [] }

/-- The run `obfuscate Token` in a directory from which two packages load. -/
def twoPkgEnv : Env := { sampleEnv "Token" with loadPkgs := [samplePkg, samplePkg] }

/-- The run `obfuscate Token` in which the load reports an error. -/
def loadErrEnv : Env := { sampleEnv "Token" with loadErr := some (lit "no Go files") }

/-- The invocation `obfuscate` with no positional argument. -/
def noArgEnv : Env := { sampleEnv "Token" with Args := [lit "obfuscate"] }

/-- The invocation `obfuscate Token Count` with two positional arguments. -/
def twoArgEnv : Env :=
  { sampleEnv "Token" with Args := [lit "obfuscate", lit "Token", lit "Count"] }

/-- The run `obfuscate Token` in which the file cannot be created. -/
def createFailEnv : Env :=
  { sampleEnv "Token" with createErr := fun _ => some (lit "permission denied") }

/-- The run `obfuscate Token` in which the write into the file fails. -/
def writeFailEnv : Env := { sampleEnv "Token" with writeErr := some (lit "disk full") }

/-- The run `obfuscate Token` in which the file cannot be closed. -/
def closeFailEnv : Env := { sampleEnv "Token" with closeErr := some (lit "input/output error") }

/-- The run `obfuscate Token` in which the formatter fails. -/
def goimportsFailEnv : Env :=
  { sampleEnv "Token" with goimportsErr := some (lit "", lit "executable file not found") }

/-! ## Rendering lemmas -/

set_option maxRecDepth 100000 in
theorem parse_chooseTmpl_true : Parse (chooseTmpl true) = Except.ok strNodes := by
  rfl

set_option maxRecDepth 100000 in
theorem parse_chooseTmpl_false : Parse (chooseTmpl false) = Except.ok otherNodes := by
  rfl

set_option maxRecDepth 100000 in
theorem execute_strNodes (p r n : GoString) :
    Execute strNodes ⟨p, r, n, lit "*"⟩ = (generatedFile p r n strBody, none) := by
  simp only [generatedFile, methodDecl, List.append_assoc]
  rfl

set_option maxRecDepth 100000 in
theorem execute_otherNodes (p r n : GoString) :
    Execute otherNodes ⟨p, r, n, lit "*"⟩ = (generatedFile p r n otherBody, none) := by
  simp only [generatedFile, methodDecl, List.append_assoc]
  rfl

/-- What `generateCode` does, for every input: it classifies, parses the chosen
template, renders the file text into `w`, and fails only when the write fails. -/
theorem generateCode_eq (L : Nat → Nat) (env : Env) (obj : Object) (pkg : Package)
    (n : GoString) (w : File) :
    generateCode L env obj pkg n w =
      ⟨[Event.classify (underlyingString obj),
        Event.parse (chooseTmpl (underlyingString obj)),
        Event.execute w.Name
          (generatedFile pkg.Name (receiverName L n) n (bodyOf (underlyingString obj)))]
        ++ (match env.writeErr with
            | none => []
            | some _ => [Event.fatal (Diagnostic.couldNotExecuteTemplate n)]),
       match env.writeErr with
       | none => some ()
       | some _ => none⟩ := by
  unfold generateCode
  cases underlyingString obj
  · simp only [parse_chooseTmpl_false, execute_otherNodes, bodyOf]
    cases env.writeErr <;> rfl
  · simp only [parse_chooseTmpl_true, execute_strNodes, bodyOf]
    cases env.writeErr <;> rfl

/-- The first rune of a string that starts with the encoding of a valid rune. -/
theorem decode_runeToString (c : Nat) (hc : ValidRune c) (tail : GoString) :
    DecodeRuneInString (runeToString c ++ tail) = (c, (runeToString c).length) := by
  unfold ValidRune at hc
  unfold runeToString
  split_ifs with h1 h2 h3 h4 h5
  · simp [DecodeRuneInString, h1]
  · have a1 : ¬ (192 + c / 64 < 128) := by omega
    have a2 : ¬ (192 + c / 64 < 194) := by omega
    have a3 : 192 + c / 64 < 224 := by omega
    have a4 : 128 + c % 64 ≤ 191 := by omega
    simp [DecodeRuneInString, isCont, a1, a2, a3, a4]
    omega
  · omega
  · have a1 : ¬ (224 + c / 4096 < 128) := by omega
    have a2 : ¬ (224 + c / 4096 < 194) := by omega
    have a3 : ¬ (224 + c / 4096 < 224) := by omega
    have a4 : 224 + c / 4096 < 240 := by omega
    have a5 : (if 224 + c / 4096 = 224 then 160 else 128) ≤ 128 + c / 64 % 64 := by
      split_ifs <;> omega
    have a6 : 128 + c / 64 % 64 ≤ (if 224 + c / 4096 = 237 then 159 else 191) := by
      split_ifs <;> omega
    have a7 : 128 + c % 64 ≤ 191 := by omega
    have a8 : (224 + c / 4096) % 16 * 4096 + (128 + c / 64 % 64) % 64 * 64
        + (128 + c % 64) % 64 = c := by omega
    simp only [DecodeRuneInString, isCont, List.cons_append, List.nil_append, a1, a2, a3, a4,
      a5, a6, a7, a8, if_true, if_false, and_self, and_true, true_and, decide_True,
      Nat.le_add_right, List.length_cons, List.length_nil]
  · have a1 : ¬ (240 + c / 262144 < 128) := by omega
    have a2 : ¬ (240 + c / 262144 < 194) := by omega
    have a3 : ¬ (240 + c / 262144 < 224) := by omega
    have a4 : ¬ (240 + c / 262144 < 240) := by omega
    have a5 : 240 + c / 262144 < 245 := by omega
    have a6 : (if 240 + c / 262144 = 240 then 144 else 128) ≤ 128 + c / 4096 % 64 := by
      split_ifs <;> omega
    have a7 : 128 + c / 4096 % 64 ≤ (if 240 + c / 262144 = 244 then 143 else 191) := by
      split_ifs <;> omega
    have a8 : 128 + c / 64 % 64 ≤ 191 := by omega
    have a9 : 128 + c % 64 ≤ 191 := by omega
    have a10 : (240 + c / 262144) % 8 * 262144 + (128 + c / 4096 % 64) % 64 * 4096
        + (128 + c / 64 % 64) % 64 * 64 + (128 + c % 64) % 64 = c := by omega
    simp only [DecodeRuneInString, isCont, List.cons_append, List.nil_append, a1, a2, a3, a4,
      a5, a6, a7, a8, a9, a10, if_true, if_false, and_self, and_true, true_and, decide_True,
      Nat.le_add_right, List.length_cons, List.length_nil]
  · omega

/-! ## The paths through `main` -/

/-- The name of the generated file. -/
theorem createFile_eq (L : Nat → Nat) (env : Env) (n : GoString) :
    createFile L env n =
      match env.createErr (lit "gen_" ++ (ToLower L n ++ lit "_obfuscated.go")) with
      | some _ =>
        ⟨[Event.create (lit "gen_" ++ (ToLower L n ++ lit "_obfuscated.go")),
          Event.fatal (Diagnostic.couldNotCreateFile
            (lit "gen_" ++ (ToLower L n ++ lit "_obfuscated.go")))], none⟩
      | none =>
        ⟨[Event.create (lit "gen_" ++ (ToLower L n ++ lit "_obfuscated.go"))],
          some ⟨lit "gen_" ++ (ToLower L n ++ lit "_obfuscated.go")⟩⟩ := by
  have hname : Sprintf fileNameTmpl [ToLower L n]
      = lit "gen_" ++ (ToLower L n ++ lit "_obfuscated.go") := rfl
  unfold createFile
  simp only [hname]
  cases env.createErr (lit "gen_" ++ (ToLower L n ++ lit "_obfuscated.go")) <;> rfl

/-- A run in which the load reports an error. -/
theorem main_loadErr (L : Nat → Nat) (env : Env) (err : GoString)
    (hargs : env.Args.length = 2) (herr : env.loadErr = some err) :
    main L env = ⟨[Event.load, Event.fatal (Diagnostic.couldNotLoadPackages err)], none⟩ := by
  unfold main loadPkg
  rw [if_neg (by simp [hargs]), herr]
  rfl

/-- A run in which the load yields a number of packages other than one. -/
theorem main_pkgCount (L : Nat → Nat) (env : Env)
    (hargs : env.Args.length = 2) (herr : env.loadErr = none)
    (hlen : env.loadPkgs.length ≠ 1) :
    main L env =
      ⟨[Event.load, Event.fatal
          (Diagnostic.expectingOnlyOnePackage env.loadPkgs.length env.loadPkgs)], none⟩ := by
  unfold main loadPkg
  rw [if_neg (by simp [hargs]), herr]
  rcases hp : env.loadPkgs with _ | ⟨p, _ | ⟨q, tl⟩⟩
  · rfl
  · simp [hp] at hlen
  · rfl

/-- A run in which the requested name is not in the scope of the package. -/
theorem main_notFound (L : Nat → Nat) (env : Env) (prog n : GoString) (pkg : Package)
    (hargs : env.Args = [prog, n]) (herr : env.loadErr = none) (hpkgs : env.loadPkgs = [pkg])
    (hlook : pkg.Lookup n = none) :
    main L env =
      ⟨[Event.load, Event.debug pkg.Name n, Event.lookup n,
        Event.fatal (Diagnostic.couldNotFindType n pkg.Name)], none⟩ := by
  unfold main loadPkg
  rw [if_neg (by simp [hargs]), herr, hpkgs, hargs]
  simp only [List.getD_cons_succ, List.getD_cons_zero, bind, pure, Run.andThen, emit, hlook]
  rfl

/-- A run in which the requested name is in the scope of the package. -/
theorem main_found (L : Nat → Nat) (env : Env) (prog n : GoString) (pkg : Package)
    (obj : Object)
    (hargs : env.Args = [prog, n]) (herr : env.loadErr = none) (hpkgs : env.loadPkgs = [pkg])
    (hlook : pkg.Lookup n = some obj) :
    main L env =
      match env.createErr (lit "gen_" ++ (ToLower L n ++ lit "_obfuscated.go")),
        env.writeErr, env.closeErr, env.goimportsErr with
      | some _, _, _, _ =>
        ⟨[Event.load, Event.debug pkg.Name n, Event.lookup n,
          Event.create (lit "gen_" ++ (ToLower L n ++ lit "_obfuscated.go")),
          Event.fatal (Diagnostic.couldNotCreateFile
            (lit "gen_" ++ (ToLower L n ++ lit "_obfuscated.go")))], none⟩
      | none, some _, _, _ =>
        ⟨[Event.load, Event.debug pkg.Name n, Event.lookup n,
          Event.create (lit "gen_" ++ (ToLower L n ++ lit "_obfuscated.go")),
          Event.classify (underlyingString obj),
          Event.parse (chooseTmpl (underlyingString obj)),
          Event.execute (lit "gen_" ++ (ToLower L n ++ lit "_obfuscated.go"))
            (generatedFile pkg.Name (receiverName L n) n (bodyOf (underlyingString obj))),
          Event.fatal (Diagnostic.couldNotExecuteTemplate n)], none⟩
      | none, none, some err, _ =>
        ⟨[Event.load, Event.debug pkg.Name n, Event.lookup n,
          Event.create (lit "gen_" ++ (ToLower L n ++ lit "_obfuscated.go")),
          Event.classify (underlyingString obj),
          Event.parse (chooseTmpl (underlyingString obj)),
          Event.execute (lit "gen_" ++ (ToLower L n ++ lit "_obfuscated.go"))
            (generatedFile pkg.Name (receiverName L n) n (bodyOf (underlyingString obj))),
          Event.close (lit "gen_" ++ (ToLower L n ++ lit "_obfuscated.go")),
          Event.fatal (Diagnostic.couldNotCloseFile
            (lit "gen_" ++ (ToLower L n ++ lit "_obfuscated.go")) err)], none⟩
      | none, none, none, some (out, err) =>
        ⟨[Event.load, Event.debug pkg.Name n, Event.lookup n,
          Event.create (lit "gen_" ++ (ToLower L n ++ lit "_obfuscated.go")),
          Event.classify (underlyingString obj),
          Event.parse (chooseTmpl (underlyingString obj)),
          Event.execute (lit "gen_" ++ (ToLower L n ++ lit "_obfuscated.go"))
            (generatedFile pkg.Name (receiverName L n) n (bodyOf (underlyingString obj))),
          Event.close (lit "gen_" ++ (ToLower L n ++ lit "_obfuscated.go")),
          Event.command [lit "goimports", lit "-w",
            lit "gen_" ++ (ToLower L n ++ lit "_obfuscated.go")],
          Event.fatal (Diagnostic.couldNotRunGoimports
            [lit "goimports", lit "-w", lit "gen_" ++ (ToLower L n ++ lit "_obfuscated.go")]
            err out)], none⟩
      | none, none, none, none =>
        ⟨[Event.load, Event.debug pkg.Name n, Event.lookup n,
          Event.create (lit "gen_" ++ (ToLower L n ++ lit "_obfuscated.go")),
          Event.classify (underlyingString obj),
          Event.parse (chooseTmpl (underlyingString obj)),
          Event.execute (lit "gen_" ++ (ToLower L n ++ lit "_obfuscated.go"))
            (generatedFile pkg.Name (receiverName L n) n (bodyOf (underlyingString obj))),
          Event.close (lit "gen_" ++ (ToLower L n ++ lit "_obfuscated.go")),
          Event.command [lit "goimports", lit "-w",
            lit "gen_" ++ (ToLower L n ++ lit "_obfuscated.go")]], some ()⟩ := by
  unfold main loadPkg runGoimport
  rw [if_neg (by simp [hargs]), herr, hpkgs, hargs]
  simp only [List.getD_cons_succ, List.getD_cons_zero, bind, pure, Run.andThen, emit, hlook,
    createFile_eq, generateCode_eq]
  rcases env.createErr (lit "gen_" ++ (ToLower L n ++ lit "_obfuscated.go")) with _ | e1
  · rcases env.writeErr with _ | e2
    · rcases env.closeErr with _ | e3
      · rcases env.goimportsErr with _ | ⟨o4, e4⟩
        · rfl
        · rfl
      · rfl
    · rfl
  · rfl

/-- Every run with one positional argument is one of seven: it stops after the
load, after the lookup, after the creation of the file, after the rendering,
after the close or after the formatter, or it completes. -/
theorem main_cases (L : Nat → Nat) (env : Env) (hargs : env.Args.length = 2) :
    ∃ (p n f t x : GoString) (b : Bool) (a : List GoString) (d : Diagnostic),
      main L env = ⟨[Event.load, Event.fatal d], none⟩ ∨
      main L env = ⟨[Event.load, Event.debug p n, Event.lookup n, Event.fatal d], none⟩ ∨
      main L env = ⟨[Event.load, Event.debug p n, Event.lookup n, Event.create f,
        Event.fatal d], none⟩ ∨
      main L env = ⟨[Event.load, Event.debug p n, Event.lookup n, Event.create f,
        Event.classify b, Event.parse t, Event.execute f x, Event.fatal d], none⟩ ∨
      (main L env = ⟨[Event.load, Event.debug p n, Event.lookup n, Event.create f,
        Event.classify b, Event.parse t, Event.execute f x, Event.close f,
        Event.fatal d], none⟩ ∧ env.writeErr = none) ∨
      (main L env = ⟨[Event.load, Event.debug p n, Event.lookup n, Event.create f,
        Event.classify b, Event.parse t, Event.execute f x, Event.close f,
        Event.command a, Event.fatal d], none⟩ ∧ env.writeErr = none ∧ env.closeErr = none) ∨
      (main L env = ⟨[Event.load, Event.debug p n, Event.lookup n, Event.create f,
        Event.classify b, Event.parse t, Event.execute f x, Event.close f,
        Event.command a], some ()⟩ ∧ env.writeErr = none ∧ env.closeErr = none) := by
  obtain ⟨prog, n, hA⟩ := List.length_eq_two.mp hargs
  rcases herr : env.loadErr with _ | err
  · rcases hp : env.loadPkgs with _ | ⟨pkg, _ | ⟨q, tl⟩⟩
    · exact ⟨[], [], [], [], [], true, [], _, Or.inl
        (main_pkgCount L env hargs herr (by simp [hp]))⟩
    · rcases hlook : pkg.Lookup n with _ | obj
      · exact ⟨_, _, [], [], [], true, [], _, Or.inr (Or.inl
          (main_notFound L env prog n pkg hA herr hp hlook))⟩
      · have hm := main_found L env prog n pkg obj hA herr hp hlook
        rcases h1 : env.createErr (lit "gen_" ++ (ToLower L n ++ lit "_obfuscated.go"))
          with _ | e1
        · rcases h2 : env.writeErr with _ | e2
          · rcases h3 : env.closeErr with _ | e3
            · rcases h4 : env.goimportsErr with _ | ⟨o4, e4⟩
              · rw [h1, h2, h3, h4] at hm
                exact ⟨_, _, _, _, _, _, _, Diagnostic.couldNotCreateFile [],
                  Or.inr (Or.inr (Or.inr (Or.inr (Or.inr (Or.inr ⟨hm, rfl, rfl⟩)))))⟩
              · rw [h1, h2, h3, h4] at hm
                exact ⟨_, _, _, _, _, _, _, _,
                  Or.inr (Or.inr (Or.inr (Or.inr (Or.inr (Or.inl ⟨hm, rfl, rfl⟩)))))⟩
            · rw [h1, h2, h3] at hm
              exact ⟨_, _, _, _, _, _, [], _,
                Or.inr (Or.inr (Or.inr (Or.inr (Or.inl ⟨hm, rfl⟩))))⟩
          · rw [h1, h2] at hm
            exact ⟨_, _, _, _, _, _, [], _, Or.inr (Or.inr (Or.inr (Or.inl hm)))⟩
        · rw [h1] at hm
          exact ⟨_, _, _, [], [], true, [], _, Or.inr (Or.inr (Or.inl hm))⟩
    · exact ⟨[], [], [], [], [], true, [], _, Or.inl
        (main_pkgCount L env hargs herr (by simp [hp]))⟩
  · exact ⟨[], [], [], [], [], true, [], _, Or.inl (main_loadErr L env err hargs herr)⟩

/-! ## The claims -/

set_option maxRecDepth 100000 in
/-- C1, evaluated at `type Token string` in package `sample`: the receiver of
both generated methods is `t`, and the length expression of both bodies is
`len(string(s))`, which names `s` and not the receiver `t`. -/
theorem C1_token_body_names_s :
    receiverName latin1ToLower (lit "Token") = lit "t" ∧
    underlyingString ⟨ObjKind.TypeName, lit "string"⟩ = true ∧
    generateCode latin1ToLower (sampleEnv "Token") ⟨ObjKind.TypeName, lit "string"⟩ samplePkg
        (lit "Token") ⟨lit "gen_token_obfuscated.go"⟩ =
      ⟨[Event.classify true, Event.parse (chooseTmpl true),
        Event.execute (lit "gen_token_obfuscated.go")
          (lit ("\n// Code generated by obfuscate. DO NOT EDIT.\npackage sample\n\n"
            ++ "import (\n\t\"fmt\"\n\t\"strings\"\n)\n\n"
            ++ "func (t Token) String() string \x7b\n"
            ++ "\treturn fmt.Sprint(strings.Repeat(\"*\", len(string(s))))\n\x7d\n\n"
            ++ "func (t Token) GoString() string \x7b\n"
            ++ "\treturn fmt.Sprint(strings.Repeat(\"*\", len(string(s))))\n\x7d\n"))],
       some ()⟩ := by
  refine ⟨by decide, by decide, ?_⟩
  rw [generateCode_eq]
  rfl

/-- C2: for every object whose underlying type is not `string`, `generateCode`
renders the file in which the body of `String` and of `GoString` is
`fmt.Sprint(strings.Repeat("*", 10))`, whatever the receiver and the type name. -/
theorem C2_other_mask_is_ten (L : Nat → Nat) (env : Env) (obj : Object) (pkg : Package)
    (n : GoString) (w : File) (hother : obj.underlying ≠ lit "string") :
    (generateCode L env obj pkg n w).trace.take 3 =
      [Event.classify false, Event.parse (chooseTmpl false),
       Event.execute w.Name
         (generatedFile pkg.Name (receiverName L n) n
           (lit "fmt.Sprint(strings.Repeat(\"*\", 10))"))] := by
  have hc : underlyingString obj = false := by simp [underlyingString, hother]
  rw [generateCode_eq, hc]
  rfl

set_option maxRecDepth 100000 in
/-- C2 at `type Count int` in package `sample`: receiver `c` and ten copies of `*`. -/
theorem C2_witness :
    lit "int" ≠ lit "string" ∧
    receiverName latin1ToLower (lit "Count") = lit "c" ∧
    (generateCode latin1ToLower (sampleEnv "Count") ⟨ObjKind.TypeName, lit "int"⟩ samplePkg
        (lit "Count") ⟨lit "gen_count_obfuscated.go"⟩).trace.take 3 =
      [Event.classify false, Event.parse (chooseTmpl false),
       Event.execute (lit "gen_count_obfuscated.go")
         (generatedFile (lit "sample") (receiverName latin1ToLower (lit "Count")) (lit "Count")
           (lit "fmt.Sprint(strings.Repeat(\"*\", 10))"))] :=
  ⟨by decide, by decide,
    C2_other_mask_is_ten latin1ToLower (sampleEnv "Count") ⟨ObjKind.TypeName, lit "int"⟩
      samplePkg (lit "Count") ⟨lit "gen_count_obfuscated.go"⟩ (by decide)⟩

/-- C3: `createFile` creates the file `gen_` ++ `ToLower(n)` ++ `_obfuscated.go`,
returns it under that name when the creation succeeds, and the name is the
same in every environment. -/
theorem C3_file_name (L : Nat → Nat) (n : GoString) (env env2 : Env) :
    (createFile L env n).trace.head? =
      some (Event.create (lit "gen_" ++ ToLower L n ++ lit "_obfuscated.go")) ∧
    (createFile L env n).result.map File.Name =
      (if (env.createErr (lit "gen_" ++ ToLower L n ++ lit "_obfuscated.go")).isSome then none
       else some (lit "gen_" ++ ToLower L n ++ lit "_obfuscated.go")) ∧
    (createFile L env n).trace.head? = (createFile L env2 n).trace.head? := by
  simp only [createFile_eq, List.append_assoc]
  refine ⟨?_, ?_, ?_⟩
  · cases env.createErr (lit "gen_" ++ (ToLower L n ++ lit "_obfuscated.go")) <;> rfl
  · cases env.createErr (lit "gen_" ++ (ToLower L n ++ lit "_obfuscated.go")) <;> rfl
  · cases env.createErr (lit "gen_" ++ (ToLower L n ++ lit "_obfuscated.go")) <;>
      cases env2.createErr (lit "gen_" ++ (ToLower L n ++ lit "_obfuscated.go")) <;> rfl

/-- C4: for a type name that is the UTF-8 encoding of the valid code points
`c :: rest`, `receiverName` is the lower-case form of the encoding of `c`
alone, and `generateCode` renders both methods with that receiver. -/
theorem C4_receiver_first_code_point (L : Nat → Nat) (c : Nat) (rest : List Nat)
    (hvalid : ∀ r ∈ c :: rest, ValidRune r) (env : Env) (obj : Object) (pkg : Package)
    (w : File) :
    receiverName L (encodeRunes (c :: rest)) = ToLower L (runeToString c) ∧
    (generateCode L env obj pkg (encodeRunes (c :: rest)) w).trace.take 3 =
      [Event.classify (underlyingString obj), Event.parse (chooseTmpl (underlyingString obj)),
       Event.execute w.Name
         (generatedFile pkg.Name (ToLower L (runeToString c)) (encodeRunes (c :: rest))
           (bodyOf (underlyingString obj)))] := by
  have hrecv : receiverName L (encodeRunes (c :: rest)) = ToLower L (runeToString c) := by
    unfold receiverName
    simp only [encodeRunes, decode_runeToString c (hvalid c (List.mem_cons_self c rest))]
  refine ⟨hrecv, ?_⟩
  rw [generateCode_eq, hrecv]
  cases env.writeErr <;> rfl

set_option maxRecDepth 100000 in
/-- C4 at the type name `Élan`, whose first code point takes two bytes: the
receiver is `é`, both bytes of it, and nothing of `lan`. -/
theorem C4_witness :
    (∀ r ∈ [0xC9, 0x6C, 0x61, 0x6E], ValidRune r) ∧
    encodeRunes [0xC9, 0x6C, 0x61, 0x6E] = lit "Élan" ∧
    ToLower latin1ToLower (runeToString 0xC9) = lit "é" ∧
    (receiverName latin1ToLower (encodeRunes [0xC9, 0x6C, 0x61, 0x6E])
        = ToLower latin1ToLower (runeToString 0xC9) ∧
     (generateCode latin1ToLower (sampleEnv "Élan") ⟨ObjKind.TypeName, lit "string"⟩ samplePkg
        (encodeRunes [0xC9, 0x6C, 0x61, 0x6E]) ⟨lit "gen_élan_obfuscated.go"⟩).trace.take 3 =
      [Event.classify (underlyingString ⟨ObjKind.TypeName, lit "string"⟩),
       Event.parse (chooseTmpl (underlyingString ⟨ObjKind.TypeName, lit "string"⟩)),
       Event.execute (lit "gen_élan_obfuscated.go")
         (generatedFile (lit "sample") (ToLower latin1ToLower (runeToString 0xC9))
           (encodeRunes [0xC9, 0x6C, 0x61, 0x6E])
           (bodyOf (underlyingString ⟨ObjKind.TypeName, lit "string"⟩)))]) :=
  ⟨by decide, by decide, by decide,
    C4_receiver_first_code_point latin1ToLower 0xC9 [0x6C, 0x61, 0x6E] (by decide)
      (sampleEnv "Élan") ⟨ObjKind.TypeName, lit "string"⟩ samplePkg
      ⟨lit "gen_élan_obfuscated.go"⟩⟩

/-- C5: when the load yields exactly one package and no entry of its scope has
the requested name, `main` logs that the type could not be found, naming the
type and the package, and exits with status 1 without creating a file. -/
theorem C5_absent_name_is_fatal (L : Nat → Nat) (env : Env) (prog n : GoString)
    (pkg : Package) (hargs : env.Args = [prog, n]) (herr : env.loadErr = none)
    (hpkgs : env.loadPkgs = [pkg]) (habsent : ∀ e ∈ pkg.Scope, e.1 ≠ n) :
    main L env =
      ⟨[Event.load, Event.debug pkg.Name n, Event.lookup n,
        Event.fatal (Diagnostic.couldNotFindType n pkg.Name)], none⟩ ∧
    (main L env).exitStatus = 1 ∧
    ∀ f, Event.create f ∉ (main L env).trace := by
  have hlook : pkg.Lookup n = none := by
    simp only [Package.Lookup, Option.map_eq_none', List.find?_eq_none, decide_eq_true_eq]
    exact habsent
  have hm := main_notFound L env prog n pkg hargs herr hpkgs hlook
  rw [hm]
  exact ⟨rfl, rfl, by simp⟩

set_option maxRecDepth 100000 in
/-- C5 at `obfuscate Nope` in the directory of package `sample`. -/
theorem C5_witness :
    (sampleEnv "Nope").Args = [lit "obfuscate", lit "Nope"] ∧
    (sampleEnv "Nope").loadErr = none ∧
    (sampleEnv "Nope").loadPkgs = [samplePkg] ∧
    (∀ e ∈ samplePkg.Scope, e.1 ≠ lit "Nope") ∧
    (main latin1ToLower (sampleEnv "Nope") =
      ⟨[Event.load, Event.debug samplePkg.Name (lit "Nope"), Event.lookup (lit "Nope"),
        Event.fatal (Diagnostic.couldNotFindType (lit "Nope") samplePkg.Name)], none⟩ ∧
     (main latin1ToLower (sampleEnv "Nope")).exitStatus = 1 ∧
     ∀ f, Event.create f ∉ (main latin1ToLower (sampleEnv "Nope")).trace) :=
  ⟨rfl, rfl, rfl, by decide,
    C5_absent_name_is_fatal latin1ToLower (sampleEnv "Nope") (lit "obfuscate") (lit "Nope")
      samplePkg rfl rfl rfl (by decide)⟩

/-- C6: `loadPkg` returns a package exactly when the load reports no error and
yields one package, and then returns that package; in every other case a run
with one positional argument performs the load, logs a fatal message and
exits with status 1, with no lookup, no file creation and no formatter. -/
theorem C6_exactly_one_package (L : Nat → Nat) (env : Env) :
    ((∃ pkg, (loadPkg env).result = some pkg) ↔
      (env.loadErr = none ∧ env.loadPkgs.length = 1)) ∧
    (∀ pkg, (loadPkg env).result = some pkg → env.loadPkgs = [pkg]) ∧
    (env.Args.length = 2 → ¬ (env.loadErr = none ∧ env.loadPkgs.length = 1) →
      (∃ d, main L env = ⟨[Event.load, Event.fatal d], none⟩) ∧
      (main L env).exitStatus = 1) := by
  refine ⟨?_, ?_, ?_⟩
  · unfold loadPkg
    rcases env.loadErr with _ | err
    · rcases env.loadPkgs with _ | ⟨p, _ | ⟨q, tl⟩⟩
      · simp [bind, Run.andThen, emit, Fatal]
      · simp [bind, Run.andThen, emit, pure]
      · simp [bind, Run.andThen, emit, Fatal]
    · simp [bind, Run.andThen, emit, Fatal]
  · intro pkg
    unfold loadPkg
    rcases env.loadErr with _ | err
    · rcases env.loadPkgs with _ | ⟨p, _ | ⟨q, tl⟩⟩
      · simp [bind, Run.andThen, emit, Fatal]
      · simp [bind, Run.andThen, emit, pure]
      · simp [bind, Run.andThen, emit, Fatal]
    · simp [bind, Run.andThen, emit, Fatal]
  · intro hargs hnot
    rcases herr : env.loadErr with _ | err
    · have hlen : env.loadPkgs.length ≠ 1 := fun h => hnot ⟨herr, h⟩
      rw [main_pkgCount L env hargs herr hlen]
      exact ⟨⟨_, rfl⟩, rfl⟩
    · rw [main_loadErr L env err hargs herr]
      exact ⟨⟨_, rfl⟩, rfl⟩

set_option maxRecDepth 100000 in
/-- C6 at a load of no package, of two packages and of an error, and at the
load of the one package `sample`. -/
theorem C6_witness :
    ((∃ d, main latin1ToLower noPkgEnv = ⟨[Event.load, Event.fatal d], none⟩) ∧
      (main latin1ToLower noPkgEnv).exitStatus = 1) ∧
    ((∃ d, main latin1ToLower twoPkgEnv = ⟨[Event.load, Event.fatal d], none⟩) ∧
      (main latin1ToLower twoPkgEnv).exitStatus = 1) ∧
    ((∃ d, main latin1ToLower loadErrEnv = ⟨[Event.load, Event.fatal d], none⟩) ∧
      (main latin1ToLower loadErrEnv).exitStatus = 1) ∧
    (∃ pkg, (loadPkg (sampleEnv "Token")).result = some pkg) :=
  ⟨(C6_exactly_one_package latin1ToLower noPkgEnv).2.2 (by decide) (by decide),
   (C6_exactly_one_package latin1ToLower twoPkgEnv).2.2 (by decide) (by decide),
   (C6_exactly_one_package latin1ToLower loadErrEnv).2.2 (by decide) (by decide),
   (C6_exactly_one_package latin1ToLower (sampleEnv "Token")).1.mpr ⟨rfl, rfl⟩⟩

/-- C7: when the argument vector does not have exactly two entries, `main` only
prints the usage line to standard output and returns (exit status 0); when it
has exactly two, nothing is printed to standard output. -/
theorem C7_usage (L : Nat → Nat) (env : Env) :
    (env.Args.length ≠ 2 →
      main L env = ⟨[Event.stdout (lit "usage: obfuscate typeName\n")], some ()⟩ ∧
      (main L env).exitStatus = 0) ∧
    (env.Args.length = 2 → ∀ t, Event.stdout t ∉ (main L env).trace) := by
  refine ⟨?_, ?_⟩
  · intro h
    have hm : main L env = ⟨[Event.stdout (lit "usage: obfuscate typeName\n")], some ()⟩ := by
      unfold main
      rw [if_pos h]
      rfl
    rw [hm]
    exact ⟨rfl, rfl⟩
  · intro h t
    obtain ⟨p, n, f, t, x, b, a, d, hc⟩ := main_cases L env h
    rcases hc with hc | hc | hc | hc | ⟨hc, _⟩ | ⟨hc, _⟩ | ⟨hc, _⟩ <;> rw [hc] <;> simp

set_option maxRecDepth 100000 in
/-- C7 at `obfuscate`, at `obfuscate Token Count` and at `obfuscate Token`. -/
theorem C7_witness :
    (main latin1ToLower noArgEnv
        = ⟨[Event.stdout (lit "usage: obfuscate typeName\n")], some ()⟩ ∧
      (main latin1ToLower noArgEnv).exitStatus = 0) ∧
    (main latin1ToLower twoArgEnv
        = ⟨[Event.stdout (lit "usage: obfuscate typeName\n")], some ()⟩ ∧
      (main latin1ToLower twoArgEnv).exitStatus = 0) ∧
    (∀ t, Event.stdout t ∉ (main latin1ToLower (sampleEnv "Token")).trace) :=
  ⟨(C7_usage latin1ToLower noArgEnv).1 (by decide),
   (C7_usage latin1ToLower twoArgEnv).1 (by decide),
   (C7_usage latin1ToLower (sampleEnv "Token")).2 rfl⟩

/-- C8: for every package, type name and classification, the text that
`generateCode` renders is, in this order: the header comment, the clause
`package p`, the import block of `fmt` and `strings`, the method `String` and
the method `GoString`, both on the type `n`, both returning `string`. -/
theorem C8_file_layout (L : Nat → Nat) (env : Env) (obj : Object) (pkg : Package)
    (n : GoString) (w : File) :
    (generateCode L env obj pkg n w).trace.take 3 =
      [Event.classify (underlyingString obj), Event.parse (chooseTmpl (underlyingString obj)),
       Event.execute w.Name
        (lit "\n// Code generated by obfuscate. DO NOT EDIT.\n"
          ++ lit "package " ++ pkg.Name ++ lit "\n\n"
          ++ lit "import (\n\t\"fmt\"\n\t\"strings\"\n)\n\n"
          ++ lit "func (" ++ receiverName L n ++ lit " " ++ n ++ lit ") String() string \x7b\n"
          ++ lit "\treturn "
          ++ (if underlyingString obj then
                lit "fmt.Sprint(strings.Repeat(\"*\", len(string(s))))"
              else lit "fmt.Sprint(strings.Repeat(\"*\", 10))")
          ++ lit "\n\x7d\n" ++ lit "\n"
          ++ lit "func (" ++ receiverName L n ++ lit " " ++ n ++ lit ") GoString() string \x7b\n"
          ++ lit "\treturn "
          ++ (if underlyingString obj then
                lit "fmt.Sprint(strings.Repeat(\"*\", len(string(s))))"
              else lit "fmt.Sprint(strings.Repeat(\"*\", 10))")
          ++ lit "\n\x7d\n")] := by
  rw [generateCode_eq]
  simp only [generatedFile, methodDecl, List.append_assoc]
  cases underlyingString obj <;> cases env.writeErr <;> rfl

set_option maxRecDepth 100000 in
/-- C9 fails at `obfuscate Token` in the directory of package `sample`: the file
is created as the third stage of the run, before the symbol is classified
(fourth), the template parsed (fifth) and the text rendered (sixth). -/
theorem C9_file_created_before_classification :
    (sampleEnv "Token").Args.length = 2 ∧
    (main latin1ToLower (sampleEnv "Token")).trace =
      [Event.load, Event.debug (lit "sample") (lit "Token"), Event.lookup (lit "Token"),
       Event.create (lit "gen_token_obfuscated.go"),
       Event.classify true,
       Event.parse (chooseTmpl true),
       Event.execute (lit "gen_token_obfuscated.go")
         (generatedFile (lit "sample") (lit "t") (lit "Token") strBody),
       Event.close (lit "gen_token_obfuscated.go"),
       Event.command [lit "goimports", lit "-w", lit "gen_token_obfuscated.go"]] ∧
    (main latin1ToLower (sampleEnv "Token")).trace.indexOf
        (Event.create (lit "gen_token_obfuscated.go")) <
      (main latin1ToLower (sampleEnv "Token")).trace.indexOf (Event.classify true) := by
  have hm := main_found latin1ToLower (sampleEnv "Token") (lit "obfuscate") (lit "Token")
    samplePkg ⟨ObjKind.TypeName, lit "string"⟩ rfl rfl rfl (by decide)
  have hname : lit "gen_" ++ (ToLower latin1ToLower (lit "Token") ++ lit "_obfuscated.go")
      = lit "gen_token_obfuscated.go" := by decide
  have hrecv : receiverName latin1ToLower (lit "Token") = lit "t" := by decide
  have hcls : underlyingString ⟨ObjKind.TypeName, lit "string"⟩ = true := by decide
  rw [hname, hrecv, hcls] at hm
  have ht : (main latin1ToLower (sampleEnv "Token")).trace =
      [Event.load, Event.debug (lit "sample") (lit "Token"), Event.lookup (lit "Token"),
       Event.create (lit "gen_token_obfuscated.go"),
       Event.classify true,
       Event.parse (chooseTmpl true),
       Event.execute (lit "gen_token_obfuscated.go")
         (generatedFile (lit "sample") (lit "t") (lit "Token") strBody),
       Event.close (lit "gen_token_obfuscated.go"),
       Event.command [lit "goimports", lit "-w", lit "gen_token_obfuscated.go"]] := by
    rw [hm]
    rfl
  refine ⟨rfl, ht, ?_⟩
  rw [ht]
  simp [List.indexOf_cons]

/-- C9, amended: in every run with one positional argument `n` the operations
are performed in the order load, lookup, file creation, classification,
template parsing, rendering into the file, close, formatter, and the first
operation that fails is followed at once by the fatal message of its call
site and the exit, nothing else being performed: a load error stops the run
after the load, a package count other than one likewise, an absent name
after the lookup, a failed creation after the creation (before any
classification), a failed write after the rendering, a failed close after
the close, a failed formatter after the formatter; a run in which nothing
fails performs all eight stages and returns.  In terms of stage numbers
(load 0 to formatter 7) the stages performed are `0, ..., k - 1` for some
`k` between 1 and 8, a run that returns has `k = 8` and no fatal message,
a run that exits has a fatal message as its last operation and nowhere
else, and the formatter is reached only when the write and the close
succeeded. -/
theorem C9_stage_order (L : Nat → Nat) (env : Env) (prog n : GoString)
    (hargs : env.Args = [prog, n]) :
    (∀ err, env.loadErr = some err →
      main L env =
        ⟨[Event.load, Event.fatal (Diagnostic.couldNotLoadPackages err)], none⟩) ∧
    (env.loadErr = none → env.loadPkgs.length ≠ 1 →
      main L env =
        ⟨[Event.load, Event.fatal
            (Diagnostic.expectingOnlyOnePackage env.loadPkgs.length env.loadPkgs)], none⟩) ∧
    (∀ pkg, env.loadErr = none → env.loadPkgs = [pkg] → pkg.Lookup n = none →
      main L env =
        ⟨[Event.load, Event.debug pkg.Name n, Event.lookup n,
          Event.fatal (Diagnostic.couldNotFindType n pkg.Name)], none⟩) ∧
    (∀ pkg obj, env.loadErr = none → env.loadPkgs = [pkg] → pkg.Lookup n = some obj →
      (∀ e, env.createErr (lit "gen_" ++ (ToLower L n ++ lit "_obfuscated.go")) = some e →
        main L env =
          ⟨[Event.load, Event.debug pkg.Name n, Event.lookup n,
            Event.create (lit "gen_" ++ (ToLower L n ++ lit "_obfuscated.go")),
            Event.fatal (Diagnostic.couldNotCreateFile
              (lit "gen_" ++ (ToLower L n ++ lit "_obfuscated.go")))], none⟩) ∧
      (env.createErr (lit "gen_" ++ (ToLower L n ++ lit "_obfuscated.go")) = none →
        ∀ e, env.writeErr = some e →
        main L env =
          ⟨[Event.load, Event.debug pkg.Name n, Event.lookup n,
            Event.create (lit "gen_" ++ (ToLower L n ++ lit "_obfuscated.go")),
            Event.classify (underlyingString obj),
            Event.parse (chooseTmpl (underlyingString obj)),
            Event.execute (lit "gen_" ++ (ToLower L n ++ lit "_obfuscated.go"))
              (generatedFile pkg.Name (receiverName L n) n (bodyOf (underlyingString obj))),
            Event.fatal (Diagnostic.couldNotExecuteTemplate n)], none⟩) ∧
      (env.createErr (lit "gen_" ++ (ToLower L n ++ lit "_obfuscated.go")) = none →
        env.writeErr = none → ∀ e, env.closeErr = some e →
        main L env =
          ⟨[Event.load, Event.debug pkg.Name n, Event.lookup n,
            Event.create (lit "gen_" ++ (ToLower L n ++ lit "_obfuscated.go")),
            Event.classify (underlyingString obj),
            Event.parse (chooseTmpl (underlyingString obj)),
            Event.execute (lit "gen_" ++ (ToLower L n ++ lit "_obfuscated.go"))
              (generatedFile pkg.Name (receiverName L n) n (bodyOf (underlyingString obj))),
            Event.close (lit "gen_" ++ (ToLower L n ++ lit "_obfuscated.go")),
            Event.fatal (Diagnostic.couldNotCloseFile
              (lit "gen_" ++ (ToLower L n ++ lit "_obfuscated.go")) e)], none⟩) ∧
      (env.createErr (lit "gen_" ++ (ToLower L n ++ lit "_obfuscated.go")) = none →
        env.writeErr = none → env.closeErr = none →
        ∀ out e, env.goimportsErr = some (out, e) →
        main L env =
          ⟨[Event.load, Event.debug pkg.Name n, Event.lookup n,
            Event.create (lit "gen_" ++ (ToLower L n ++ lit "_obfuscated.go")),
            Event.classify (underlyingString obj),
            Event.parse (chooseTmpl (underlyingString obj)),
            Event.execute (lit "gen_" ++ (ToLower L n ++ lit "_obfuscated.go"))
              (generatedFile pkg.Name (receiverName L n) n (bodyOf (underlyingString obj))),
            Event.close (lit "gen_" ++ (ToLower L n ++ lit "_obfuscated.go")),
            Event.command [lit "goimports", lit "-w",
              lit "gen_" ++ (ToLower L n ++ lit "_obfuscated.go")],
            Event.fatal (Diagnostic.couldNotRunGoimports
              [lit "goimports", lit "-w", lit "gen_" ++ (ToLower L n ++ lit "_obfuscated.go")]
              e out)], none⟩) ∧
      (env.createErr (lit "gen_" ++ (ToLower L n ++ lit "_obfuscated.go")) = none →
        env.writeErr = none → env.closeErr = none → env.goimportsErr = none →
        main L env =
          ⟨[Event.load, Event.debug pkg.Name n, Event.lookup n,
            Event.create (lit "gen_" ++ (ToLower L n ++ lit "_obfuscated.go")),
            Event.classify (underlyingString obj),
            Event.parse (chooseTmpl (underlyingString obj)),
            Event.execute (lit "gen_" ++ (ToLower L n ++ lit "_obfuscated.go"))
              (generatedFile pkg.Name (receiverName L n) n (bodyOf (underlyingString obj))),
            Event.close (lit "gen_" ++ (ToLower L n ++ lit "_obfuscated.go")),
            Event.command [lit "goimports", lit "-w",
              lit "gen_" ++ (ToLower L n ++ lit "_obfuscated.go")]], some ()⟩)) ∧
    (∃ k, 1 ≤ k ∧ k ≤ 8 ∧ (main L env).trace.filterMap stage = List.range k ∧
      ((main L env).result = some () → k = 8 ∧ ∀ d, Event.fatal d ∉ (main L env).trace) ∧
      ((main L env).result = none →
        (∃ d, (main L env).trace.getLast? = some (Event.fatal d)) ∧
        ∀ d, Event.fatal d ∉ (main L env).trace.dropLast) ∧
      (k = 8 → env.writeErr = none ∧ env.closeErr = none)) := by
  have hlen : env.Args.length = 2 := by simp [hargs]
  refine ⟨?_, ?_, ?_, ?_, ?_⟩
  · intro err herr
    exact main_loadErr L env err hlen herr
  · intro herr hne
    exact main_pkgCount L env hlen herr hne
  · intro pkg herr hpkgs hlook
    exact main_notFound L env prog n pkg hargs herr hpkgs hlook
  · intro pkg obj herr hpkgs hlook
    have hm := main_found L env prog n pkg obj hargs herr hpkgs hlook
    refine ⟨?_, ?_, ?_, ?_, ?_⟩
    · intro e h1
      rw [h1] at hm
      exact hm
    · intro h1 e h2
      rw [h1, h2] at hm
      exact hm
    · intro h1 h2 e h3
      rw [h1, h2, h3] at hm
      exact hm
    · intro h1 h2 h3 out e h4
      rw [h1, h2, h3, h4] at hm
      exact hm
    · intro h1 h2 h3 h4
      rw [h1, h2, h3, h4] at hm
      exact hm
  · obtain ⟨p, m, f, t, x, b, a, d, hc⟩ := main_cases L env hlen
    rcases hc with hc | hc | hc | hc | ⟨hc, hw⟩ | ⟨hc, hw, hcl⟩ | ⟨hc, hw, hcl⟩
    · exact ⟨1, by decide, by decide, by rw [hc]; rfl, by rw [hc]; simp, by rw [hc]; simp,
        by simp⟩
    · exact ⟨2, by decide, by decide, by rw [hc]; rfl, by rw [hc]; simp, by rw [hc]; simp,
        by simp⟩
    · exact ⟨3, by decide, by decide, by rw [hc]; rfl, by rw [hc]; simp, by rw [hc]; simp,
        by simp⟩
    · exact ⟨6, by decide, by decide, by rw [hc]; rfl, by rw [hc]; simp, by rw [hc]; simp,
        by simp⟩
    · exact ⟨7, by decide, by decide, by rw [hc]; rfl, by rw [hc]; simp, by rw [hc]; simp,
        by simp⟩
    · exact ⟨8, by decide, by decide, by rw [hc]; rfl, by rw [hc]; simp, by rw [hc]; simp,
        fun _ => ⟨hw, hcl⟩⟩
    · exact ⟨8, by decide, by decide, by rw [hc]; rfl, by rw [hc]; simp, by rw [hc]; simp,
        fun _ => ⟨hw, hcl⟩⟩

set_option maxRecDepth 100000 in
/-- C9, amended, at `obfuscate Token` in the directory of package `sample`: the
run in which nothing fails performs all eight stages and returns; the run in
which the file cannot be created stops after the creation, before any
classification; the run in which the formatter fails exits after it. -/
theorem C9_witness :
    (sampleEnv "Token").Args = [lit "obfuscate", lit "Token"] ∧
    samplePkg.Lookup (lit "Token") = some ⟨ObjKind.TypeName, lit "string"⟩ ∧
    main latin1ToLower (sampleEnv "Token") =
      ⟨[Event.load, Event.debug samplePkg.Name (lit "Token"), Event.lookup (lit "Token"),
        Event.create
          (lit "gen_" ++ (ToLower latin1ToLower (lit "Token") ++ lit "_obfuscated.go")),
        Event.classify (underlyingString ⟨ObjKind.TypeName, lit "string"⟩),
        Event.parse (chooseTmpl (underlyingString ⟨ObjKind.TypeName, lit "string"⟩)),
        Event.execute
          (lit "gen_" ++ (ToLower latin1ToLower (lit "Token") ++ lit "_obfuscated.go"))
          (generatedFile samplePkg.Name (receiverName latin1ToLower (lit "Token")) (lit "Token")
            (bodyOf (underlyingString ⟨ObjKind.TypeName, lit "string"⟩))),
        Event.close
          (lit "gen_" ++ (ToLower latin1ToLower (lit "Token") ++ lit "_obfuscated.go")),
        Event.command [lit "goimports", lit "-w",
          lit "gen_" ++ (ToLower latin1ToLower (lit "Token") ++ lit "_obfuscated.go")]],
       some ()⟩ ∧
    main latin1ToLower createFailEnv =
      ⟨[Event.load, Event.debug samplePkg.Name (lit "Token"), Event.lookup (lit "Token"),
        Event.create
          (lit "gen_" ++ (ToLower latin1ToLower (lit "Token") ++ lit "_obfuscated.go")),
        Event.fatal (Diagnostic.couldNotCreateFile
          (lit "gen_" ++ (ToLower latin1ToLower (lit "Token") ++ lit "_obfuscated.go")))],
       none⟩ ∧
    main latin1ToLower goimportsFailEnv =
      ⟨[Event.load, Event.debug samplePkg.Name (lit "Token"), Event.lookup (lit "Token"),
        Event.create
          (lit "gen_" ++ (ToLower latin1ToLower (lit "Token") ++ lit "_obfuscated.go")),
        Event.classify (underlyingString ⟨ObjKind.TypeName, lit "string"⟩),
        Event.parse (chooseTmpl (underlyingString ⟨ObjKind.TypeName, lit "string"⟩)),
        Event.execute
          (lit "gen_" ++ (ToLower latin1ToLower (lit "Token") ++ lit "_obfuscated.go"))
          (generatedFile samplePkg.Name (receiverName latin1ToLower (lit "Token")) (lit "Token")
            (bodyOf (underlyingString ⟨ObjKind.TypeName, lit "string"⟩))),
        Event.close
          (lit "gen_" ++ (ToLower latin1ToLower (lit "Token") ++ lit "_obfuscated.go")),
        Event.command [lit "goimports", lit "-w",
          lit "gen_" ++ (ToLower latin1ToLower (lit "Token") ++ lit "_obfuscated.go")],
        Event.fatal (Diagnostic.couldNotRunGoimports
          [lit "goimports", lit "-w",
            lit "gen_" ++ (ToLower latin1ToLower (lit "Token") ++ lit "_obfuscated.go")]
          (lit "executable file not found") (lit ""))],
       none⟩ ∧
    main latin1ToLower writeFailEnv =
      ⟨[Event.load, Event.debug samplePkg.Name (lit "Token"), Event.lookup (lit "Token"),
        Event.create
          (lit "gen_" ++ (ToLower latin1ToLower (lit "Token") ++ lit "_obfuscated.go")),
        Event.classify (underlyingString ⟨ObjKind.TypeName, lit "string"⟩),
        Event.parse (chooseTmpl (underlyingString ⟨ObjKind.TypeName, lit "string"⟩)),
        Event.execute
          (lit "gen_" ++ (ToLower latin1ToLower (lit "Token") ++ lit "_obfuscated.go"))
          (generatedFile samplePkg.Name (receiverName latin1ToLower (lit "Token")) (lit "Token")
            (bodyOf (underlyingString ⟨ObjKind.TypeName, lit "string"⟩))),
        Event.fatal (Diagnostic.couldNotExecuteTemplate (lit "Token"))],
       none⟩ ∧
    main latin1ToLower closeFailEnv =
      ⟨[Event.load, Event.debug samplePkg.Name (lit "Token"), Event.lookup (lit "Token"),
        Event.create
          (lit "gen_" ++ (ToLower latin1ToLower (lit "Token") ++ lit "_obfuscated.go")),
        Event.classify (underlyingString ⟨ObjKind.TypeName, lit "string"⟩),
        Event.parse (chooseTmpl (underlyingString ⟨ObjKind.TypeName, lit "string"⟩)),
        Event.execute
          (lit "gen_" ++ (ToLower latin1ToLower (lit "Token") ++ lit "_obfuscated.go"))
          (generatedFile samplePkg.Name (receiverName latin1ToLower (lit "Token")) (lit "Token")
            (bodyOf (underlyingString ⟨ObjKind.TypeName, lit "string"⟩))),
        Event.close
          (lit "gen_" ++ (ToLower latin1ToLower (lit "Token") ++ lit "_obfuscated.go")),
        Event.fatal (Diagnostic.couldNotCloseFile
          (lit "gen_" ++ (ToLower latin1ToLower (lit "Token") ++ lit "_obfuscated.go"))
          (lit "input/output error"))],
       none⟩ :=
  ⟨rfl, by decide,
   (C9_stage_order latin1ToLower (sampleEnv "Token") (lit "obfuscate") (lit "Token")
      rfl).2.2.2.1 samplePkg ⟨ObjKind.TypeName, lit "string"⟩ rfl rfl (by decide)
      |>.2.2.2.2 rfl rfl rfl rfl,
   (C9_stage_order latin1ToLower createFailEnv (lit "obfuscate") (lit "Token")
      rfl).2.2.2.1 samplePkg ⟨ObjKind.TypeName, lit "string"⟩ rfl rfl (by decide)
      |>.1 (lit "permission denied") rfl,
   (C9_stage_order latin1ToLower goimportsFailEnv (lit "obfuscate") (lit "Token")
      rfl).2.2.2.1 samplePkg ⟨ObjKind.TypeName, lit "string"⟩ rfl rfl (by decide)
      |>.2.2.2.1 rfl rfl rfl (lit "") (lit "executable file not found") rfl,
   (C9_stage_order latin1ToLower writeFailEnv (lit "obfuscate") (lit "Token")
      rfl).2.2.2.1 samplePkg ⟨ObjKind.TypeName, lit "string"⟩ rfl rfl (by decide)
      |>.2.1 rfl (lit "disk full") rfl,
   (C9_stage_order latin1ToLower closeFailEnv (lit "obfuscate") (lit "Token")
      rfl).2.2.2.1 samplePkg ⟨ObjKind.TypeName, lit "string"⟩ rfl rfl (by decide)
      |>.2.2.1 rfl rfl (lit "input/output error") rfl⟩

/-- C10: when the lookup finds an object, of whatever kind, `main` does not log
that the type could not be found; it creates the file, and where the creation
succeeds it classifies the object by the underlying type of its type and
renders the two methods on the requested name. -/
theorem C10_any_kind_of_object (L : Nat → Nat) (env : Env) (prog n : GoString)
    (pkg : Package) (kind : ObjKind) (underlying : GoString)
    (hargs : env.Args = [prog, n]) (herr : env.loadErr = none)
    (hpkgs : env.loadPkgs = [pkg]) (hlook : pkg.Lookup n = some ⟨kind, underlying⟩) :
    (∀ t p, Event.fatal (Diagnostic.couldNotFindType t p) ∉ (main L env).trace) ∧
    (main L env).trace.take 4 =
      [Event.load, Event.debug pkg.Name n, Event.lookup n,
       Event.create (lit "gen_" ++ ToLower L n ++ lit "_obfuscated.go")] ∧
    (env.createErr (lit "gen_" ++ ToLower L n ++ lit "_obfuscated.go") = none →
      ((main L env).trace.drop 4).take 3 =
        [Event.classify (decide (underlying = lit "string")),
         Event.parse (chooseTmpl (decide (underlying = lit "string"))),
         Event.execute (lit "gen_" ++ ToLower L n ++ lit "_obfuscated.go")
           (generatedFile pkg.Name (receiverName L n) n
             (bodyOf (decide (underlying = lit "string"))))]) := by
  have hm := main_found L env prog n pkg ⟨kind, underlying⟩ hargs herr hpkgs hlook
  simp only [List.append_assoc]
  rw [hm]
  rcases env.createErr (lit "gen_" ++ (ToLower L n ++ lit "_obfuscated.go")) with _ | e1
  · rcases env.writeErr with _ | e2
    · rcases env.closeErr with _ | e3
      · rcases env.goimportsErr with _ | ⟨o4, e4⟩
        · exact ⟨by simp, rfl, fun _ => rfl⟩
        · exact ⟨by simp, rfl, fun _ => rfl⟩
      · exact ⟨by simp, rfl, fun _ => rfl⟩
    · exact ⟨by simp, rfl, fun _ => rfl⟩
  · exact ⟨by simp, rfl, fun h => by simp at h⟩

set_option maxRecDepth 100000 in
/-- C10 at `obfuscate Greeting` in the directory of package `sample`, where
`Greeting` is a variable of type `string` and no type. -/
theorem C10_witness :
    (sampleEnv "Greeting").Args = [lit "obfuscate", lit "Greeting"] ∧
    samplePkg.Lookup (lit "Greeting") = some ⟨ObjKind.Var, lit "string"⟩ ∧
    ((∀ t p, Event.fatal (Diagnostic.couldNotFindType t p)
        ∉ (main latin1ToLower (sampleEnv "Greeting")).trace) ∧
     (main latin1ToLower (sampleEnv "Greeting")).trace.take 4 =
      [Event.load, Event.debug samplePkg.Name (lit "Greeting"), Event.lookup (lit "Greeting"),
       Event.create
         (lit "gen_" ++ ToLower latin1ToLower (lit "Greeting") ++ lit "_obfuscated.go")] ∧
     ((sampleEnv "Greeting").createErr
        (lit "gen_" ++ ToLower latin1ToLower (lit "Greeting") ++ lit "_obfuscated.go") = none →
      ((main latin1ToLower (sampleEnv "Greeting")).trace.drop 4).take 3 =
        [Event.classify (decide (lit "string" = lit "string")),
         Event.parse (chooseTmpl (decide (lit "string" = lit "string"))),
         Event.execute
           (lit "gen_" ++ ToLower latin1ToLower (lit "Greeting") ++ lit "_obfuscated.go")
           (generatedFile samplePkg.Name (receiverName latin1ToLower (lit "Greeting"))
             (lit "Greeting") (bodyOf (decide (lit "string" = lit "string"))))])) :=
  ⟨rfl, by decide,
    C10_any_kind_of_object latin1ToLower (sampleEnv "Greeting") (lit "obfuscate")
      (lit "Greeting") samplePkg ObjKind.Var (lit "string") rfl rfl rfl (by decide)⟩

end Obfuscate
